import Mathlib

/-!
# nav_2d_utils::OdomSubscriber

A shallow embedding of `nav_2d_utils/odom_subscriber.hpp`: the subscriber keeps
the latest planar velocity reported by an odometry topic and masks the lateral
component for a differential-drive robot.

The ROS message types the header uses (`nav_msgs/Odometry`, `nav_2d_msgs/Twist2DStamped`
and what they are built from) are records of plain data; they are written out here
field by field.  A C++ `double` is held as its IEEE-754 binary64 bit pattern: the
code only copies doubles and stores the constant `0`, so the pattern is all that
matters and a copy is the identity on it.
-/

namespace nav_2d_utils

/-! ## Scalars -/

/-- A C++ `double` (ROS `float64`), as its IEEE-754 binary64 bit pattern
(`bits < 2^64`: sign bit 63, exponent bits 62..52, fraction bits 51..0). -/
structure Double where
  bits : Nat
deriving DecidableEq, Repr

namespace Double

/-- The double that the integer literal `0` converts to: `+0.0`, all bits clear. -/
def zero : Double := ⟨0⟩

/-- Sign bit. -/
def sign (d : Double) : Nat := d.bits / 2 ^ 63 % 2

/-- Biased exponent field. -/
def expo (d : Double) : Nat := d.bits / 2 ^ 52 % 2 ^ 11

/-- Fraction field. -/
def frac (d : Double) : Nat := d.bits % 2 ^ 52

/-- NaN: exponent all ones, fraction nonzero. -/
def isNaN (d : Double) : Bool := d.expo == 2047 && d.frac != 0

/-- Either of the two zeros `+0.0`, `-0.0`. -/
def isZero (d : Double) : Bool := d.expo == 0 && d.frac == 0

/-- The C++ comparison `a == b` on doubles: false when either side is NaN,
true on two zeros of any sign, otherwise equality of the patterns. -/
def feq (a b : Double) : Bool :=
  !a.isNaN && !b.isNaN && ((a.isZero && b.isZero) || a.bits == b.bits)

/-- The C++ comparison `a != b` on doubles. -/
def fne (a b : Double) : Bool := !feq a b

/-- The rational value of a finite double (`none` for infinities and NaN). -/
def toRat? (d : Double) : Option ℚ :=
  if d.expo = 2047 then none
  else if d.expo = 0 then
    some ((-1) ^ d.sign * (d.frac : ℚ) * 2 ^ (-1074 : ℤ))
  else
    some ((-1) ^ d.sign * ((2 ^ 52 + d.frac : ℕ) : ℚ) * 2 ^ ((d.expo : ℤ) - 1075))

/-- The double `1.5`. -/
def d1_5 : Double := ⟨0x3FF8000000000000⟩
/-- The double nearest to `0.8`. -/
def d0_8 : Double := ⟨0x3FE999999999999A⟩
/-- The double nearest to `0.2`. -/
def d0_2 : Double := ⟨0x3FC999999999999A⟩
/-- The double `1.0`. -/
def d1 : Double := ⟨0x3FF0000000000000⟩
/-- The double `2.0`. -/
def d2 : Double := ⟨0x4000000000000000⟩

end Double

/-! ## Messages -/

/-- Message `builtin_interfaces/Time`: `int32 sec`, `uint32 nanosec`. -/
structure Time where
  sec : Int
  nanosec : Nat
deriving DecidableEq, Repr

/-- Message `std_msgs/Header`. -/
structure Header where
  stamp : Time
  frame_id : String
deriving DecidableEq, Repr

/-- Message `geometry_msgs/Vector3`. -/
structure Vector3 where
  x : Double
  y : Double
  z : Double
deriving DecidableEq, Repr

/-- Message `geometry_msgs/Twist`. -/
structure Twist where
  linear : Vector3
  angular : Vector3
deriving DecidableEq, Repr

/-- Message `geometry_msgs/TwistWithCovariance` (`float64[36] covariance`). -/
structure TwistWithCovariance where
  twist : Twist
  covariance : List Double
deriving DecidableEq, Repr

/-- Message `geometry_msgs/Point`. -/
structure Point where
  x : Double
  y : Double
  z : Double
deriving DecidableEq, Repr

/-- Message `geometry_msgs/Quaternion`. -/
structure Quaternion where
  x : Double
  y : Double
  z : Double
  w : Double
deriving DecidableEq, Repr

/-- Message `geometry_msgs/Pose`. -/
structure Pose where
  position : Point
  orientation : Quaternion
deriving DecidableEq, Repr

/-- Message `geometry_msgs/PoseWithCovariance` (`float64[36] covariance`). -/
structure PoseWithCovariance where
  pose : Pose
  covariance : List Double
deriving DecidableEq, Repr

/-- Message `nav_msgs/Odometry`: the raw sensor sample handed to the callback. -/
structure Odometry where
  header : Header
  child_frame_id : String
  pose : PoseWithCovariance
  twist : TwistWithCovariance
deriving DecidableEq, Repr

/-- Message `nav_2d_msgs/Twist2D`: forward `x`, lateral `y`, angular `theta`. -/
structure Twist2D where
  x : Double
  y : Double
  theta : Double
deriving DecidableEq, Repr

/-- Message `nav_2d_msgs/Twist2DStamped`: the held velocity sample. -/
structure Twist2DStamped where
  header : Header
  velocity : Twist2D
deriving DecidableEq, Repr

/-! ## The subscriber -/

/-- The enum `RobotType`. -/
inductive RobotType where
  | DIFFERENTIAL
  | HOLONOMIC
deriving DecidableEq, Repr

open RobotType

/-- The data members of `class OdomSubscriber`.  `odom_sub_` is represented by the
topic it subscribes to.  `odom_mutex_` carries no data between two sequential
calls (a `lock_guard` releases it on return); it appears in the interleaving
model `Sys` below. -/
structure OdomSubscriber where
  odom_sub_ : String
  odom_vel_ : Twist2DStamped
  robot_type_ : RobotType
deriving DecidableEq, Repr

namespace OdomSubscriber

/-- Statement `odom_vel_.header = msg->header;`. -/
def assignHeader (self : OdomSubscriber) (msg : Odometry) : OdomSubscriber :=
  { self with odom_vel_ := { self.odom_vel_ with header := msg.header } }

/-- Statement `odom_vel_.velocity.x = msg->twist.twist.linear.x;`. -/
def assignX (self : OdomSubscriber) (msg : Odometry) : OdomSubscriber :=
  { self with odom_vel_ :=
      { self.odom_vel_ with
        velocity := { self.odom_vel_.velocity with x := msg.twist.twist.linear.x } } }

/-- Statement `if (robot_type_ == HOLONOMIC) { odom_vel_.velocity.y = msg->twist.twist.linear.y; }
else { odom_vel_.velocity.y = 0; }`. -/
def assignY (self : OdomSubscriber) (msg : Odometry) : OdomSubscriber :=
  if self.robot_type_ = HOLONOMIC then
    { self with odom_vel_ :=
        { self.odom_vel_ with
          velocity := { self.odom_vel_.velocity with y := msg.twist.twist.linear.y } } }
  else
    { self with odom_vel_ :=
        { self.odom_vel_ with
          velocity := { self.odom_vel_.velocity with y := Double.zero } } }

/-- Statement `odom_vel_.velocity.theta = msg->twist.twist.angular.z;`. -/
def assignTheta (self : OdomSubscriber) (msg : Odometry) : OdomSubscriber :=
  { self with odom_vel_ :=
      { self.odom_vel_ with
        velocity := { self.odom_vel_.velocity with theta := msg.twist.twist.angular.z } } }

/-- Method `odomCallback` run to completion by one thread: the four assignments
in source order (the lock is taken on entry and released on return). -/
def odomCallback (self : OdomSubscriber) (msg : Odometry) : OdomSubscriber :=
  let self := assignHeader self msg
  let self := assignX self msg
  let self := assignY self msg
  assignTheta self msg

/-- Method `getTwist`: `return odom_vel_.velocity;`.  The method is not `const`;
the object after the call is returned beside the result. -/
def getTwist (self : OdomSubscriber) : Twist2D × OdomSubscriber :=
  (self.odom_vel_.velocity, self)

/-- Method `getTwistStamped`: `return odom_vel_;`. -/
def getTwistStamped (self : OdomSubscriber) : Twist2DStamped × OdomSubscriber :=
  (self.odom_vel_, self)

end OdomSubscriber

/-- A raw odometry message with the given forward, lateral and angular velocity and
capture time `t` seconds; every other field is zero or empty. -/
def rawSample (f l w : Double) (t : Int) : Odometry :=
  { header := { stamp := { sec := t, nanosec := 0 }, frame_id := "" }
    child_frame_id := ""
    pose := { pose := { position := ⟨Double.zero, Double.zero, Double.zero⟩
                        orientation := ⟨Double.zero, Double.zero, Double.zero, Double.zero⟩ }
              covariance := List.replicate 36 Double.zero }
    twist := { twist := { linear := ⟨f, l, Double.zero⟩
                          angular := ⟨Double.zero, Double.zero, w⟩ }
               covariance := List.replicate 36 Double.zero } }

/-- The sample the update is specified to store for a raw message: forward, angular
and header copied, lateral copied for a holonomic robot and forced to `+0.0` for a
differential one. -/
def maskedSample (t : RobotType) (msg : Odometry) : Twist2DStamped :=
  { header := msg.header
    velocity :=
      { x := msg.twist.twist.linear.x
        y := match t with
          | HOLONOMIC => msg.twist.twist.linear.y
          | DIFFERENTIAL => Double.zero
        theta := msg.twist.twist.angular.z } }

/-! ## Construction -/

/-- A thrown C++ exception. -/
inductive Exception where
  | runtime_error (what : String)
deriving DecidableEq, Repr

/-- The two parameters of the `rclcpp::Node` that the constructor reads, each
`none` when the parameter is not set on the node. -/
structure Node where
  odom_topic : Option String
  holonomic_robot : Option Bool
deriving DecidableEq, Repr

/-- Call `nh.get_parameter_or(name, value, alternative_value)`: `value` receives the
parameter when it is set and `alternative_value` otherwise. -/
def get_parameter_or {α : Type} (param : Option α) (alternative_value : α) : α :=
  match param with
  | some v => v
  | none => alternative_value

/-- Modelled from the spec: the value of a default-constructed
`nav_2d_msgs::msg::Twist2DStamped`, whose declaration (`Twist2DStamped.msg` and the
C++ struct generated from it) is not among the sources.  The specification calls the
sample held before any update "all-zero" with "zero velocity, epoch timestamp". -/
def Twist2DStamped.init : Twist2DStamped :=
  { header := { stamp := { sec := 0, nanosec := 0 }, frame_id := "" }
    velocity := { x := Double.zero, y := Double.zero, theta := Double.zero } }

/-- The constructor `OdomSubscriber(nh, default_topic)`.  No statement of its body
throws; `odom_vel_` is not assigned and keeps its default-constructed value. -/
def OdomSubscriber.new (nh : Node) (default_topic : String) :
    Except Exception OdomSubscriber :=
  let odom_topic := get_parameter_or nh.odom_topic default_topic
  let robot_type := get_parameter_or nh.holonomic_robot true
  let robot_type_ := if robot_type then HOLONOMIC else DIFFERENTIAL
  pure { odom_sub_ := odom_topic, odom_vel_ := Twist2DStamped.init, robot_type_ := robot_type_ }

/-! ## Parsing a robot type -/

/-- The C function `tolower` in the "C" locale: the letters `A`..`Z` move to
`a`..`z`, every other character is returned unchanged. -/
def tolower (c : Char) : Char :=
  if 'A' ≤ c ∧ c ≤ 'Z' then Char.ofNat (c.toNat + 32) else c

/-- Call `std::transform(begin(s), end(s), begin(s), ::tolower)`.  A `std::string`
is read as the text it encodes; `tolower` leaves every byte outside `A`..`Z`
alone, so lowering characters and lowering bytes agree. -/
def transform_tolower (s : String) : String :=
  String.mk (s.data.map tolower)

/-- The exception thrown by `convertStringToRobotType`. -/
def invalid_robot_type : Exception :=
  Exception.runtime_error
    "robot_type parameter is invalid. Must be 'holonomic' or 'differential'"

/-- Method `convertStringToRobotType`. -/
def convertStringToRobotType (robot_type : String) : Except Exception RobotType :=
  let robot_type := transform_tolower robot_type
  if robot_type = "differential" then
    pure DIFFERENTIAL
  else if robot_type = "holonomic" then
    pure HOLONOMIC
  else
    throw invalid_robot_type

/-- Two texts are the same up to the case of the letters `A`..`Z`, `a`..`z`;
`key` is the lower-case one. -/
def matchesIgnoringCase : List Char → List Char → Bool
  | [], [] => true
  | c :: cs, k :: ks =>
    (c == k || ('a' ≤ k && k ≤ 'z' && c.toNat + 32 == k.toNat)) && matchesIgnoringCase cs ks
  | _, _ => false

/-! ## Interleaved execution

One thread runs `odomCallback` statement by statement while other threads call the
two getters.  The getters contain no `lock_guard`, so a getter step is enabled
whatever the state of `odom_mutex_`; each getter is taken to copy the sample in
one indivisible step. -/

/-- Program points of an activation of `odomCallback`. -/
inductive Pc where
  | lock
  | header
  | x
  | y
  | theta
  | unlock
deriving DecidableEq, Repr

/-- The object, its mutex, and the activation of `odomCallback` in progress. -/
structure Sys where
  obj : OdomSubscriber
  odom_mutex_ : Bool
  writer : Option (Odometry × Pc)
deriving DecidableEq, Repr

/-- What a scheduler can let happen next. -/
inductive Event where
  | deliver (msg : Odometry)
  | writerStep
  | getTwist
  | getTwistStamped
deriving DecidableEq, Repr

/-- Value returned to a reader. -/
inductive Obs where
  | twist (v : Twist2D)
  | stamped (v : Twist2DStamped)
deriving DecidableEq, Repr

namespace Sys

/-- An object at rest: mutex free, no callback running. -/
def idle (obj : OdomSubscriber) : Sys :=
  { obj := obj, odom_mutex_ := false, writer := none }

/-- One scheduling step; `none` when the event is not enabled. -/
def step (s : Sys) : Event → Option (Sys × Option Obs)
  | Event.deliver msg =>
    match s.writer with
    | none => some ({ s with writer := some (msg, Pc.lock) }, none)
    | some _ => none
  | Event.writerStep =>
    match s.writer with
    | none => none
    | some (msg, Pc.lock) =>
      if s.odom_mutex_ then none
      else some ({ s with odom_mutex_ := true, writer := some (msg, Pc.header) }, none)
    | some (msg, Pc.header) =>
      some ({ s with obj := s.obj.assignHeader msg, writer := some (msg, Pc.x) }, none)
    | some (msg, Pc.x) =>
      some ({ s with obj := s.obj.assignX msg, writer := some (msg, Pc.y) }, none)
    | some (msg, Pc.y) =>
      some ({ s with obj := s.obj.assignY msg, writer := some (msg, Pc.theta) }, none)
    | some (msg, Pc.theta) =>
      some ({ s with obj := s.obj.assignTheta msg, writer := some (msg, Pc.unlock) }, none)
    | some (_, Pc.unlock) =>
      some ({ s with odom_mutex_ := false, writer := none }, none)
  | Event.getTwist =>
    some ({ s with obj := s.obj.getTwist.2 }, some (Obs.twist s.obj.getTwist.1))
  | Event.getTwistStamped =>
    some ({ s with obj := s.obj.getTwistStamped.2 }, some (Obs.stamped s.obj.getTwistStamped.1))

/-- Run a schedule, collecting what the readers were handed, in order. -/
def run (s : Sys) : List Event → Option (Sys × List Obs)
  | [] => some (s, [])
  | e :: es =>
    match s.step e with
    | none => none
    | some (s1, o) =>
      match run s1 es with
      | none => none
      | some (s2, os) => some (s2, o.toList ++ os)

/-- The schedule in which `odomCallback(msg)` runs from its call to its return
with nothing in between. -/
def callbackEvents (msg : Odometry) : List Event :=
  Event.deliver msg :: List.replicate 6 Event.writerStep

end Sys

/-! ## Sanity of the scalar constants -/

theorem Double.toRat_d1_5 : Double.toRat? Double.d1_5 = some (3 / 2) := by
  norm_num [Double.toRat?, Double.d1_5, Double.expo, Double.sign, Double.frac]

theorem Double.toRat_d0_8 :
    ∃ q : ℚ, Double.toRat? Double.d0_8 = some q ∧ |q - 4 / 5| ≤ 1 / 2 ^ 54 := by
  refine ⟨3602879701896397 / 2 ^ 52, ?_, ?_⟩
  · norm_num [Double.toRat?, Double.d0_8, Double.expo, Double.sign, Double.frac]
  · rw [abs_le]; constructor <;> norm_num

theorem Double.toRat_d0_2 :
    ∃ q : ℚ, Double.toRat? Double.d0_2 = some q ∧ |q - 1 / 5| ≤ 1 / 2 ^ 56 := by
  refine ⟨3602879701896397 / 2 ^ 54, ?_, ?_⟩
  · norm_num [Double.toRat?, Double.d0_2, Double.expo, Double.sign, Double.frac]
  · rw [abs_le]; constructor <;> norm_num

theorem Double.toRat_zero : Double.toRat? Double.zero = some 0 := by
  norm_num [Double.toRat?, Double.zero, Double.expo, Double.sign, Double.frac]

theorem Double.toRat_d1 : Double.toRat? Double.d1 = some 1 := by
  norm_num [Double.toRat?, Double.d1, Double.expo, Double.sign, Double.frac]

theorem Double.toRat_d2 : Double.toRat? Double.d2 = some 2 := by
  norm_num [Double.toRat?, Double.d2, Double.expo, Double.sign, Double.frac]

/-! ## The update, one call at a time -/

namespace OdomSubscriber

theorem odomCallback_robot_type (s : OdomSubscriber) (msg : Odometry) :
    (odomCallback s msg).robot_type_ = s.robot_type_ := by
  unfold odomCallback assignTheta assignY assignX assignHeader
  dsimp only
  split <;> rfl

theorem odomCallback_odom_sub (s : OdomSubscriber) (msg : Odometry) :
    (odomCallback s msg).odom_sub_ = s.odom_sub_ := by
  unfold odomCallback assignTheta assignY assignX assignHeader
  dsimp only
  split <;> rfl

theorem odomCallback_odom_vel (s : OdomSubscriber) (msg : Odometry) :
    (odomCallback s msg).odom_vel_ = maskedSample s.robot_type_ msg := by
  unfold odomCallback assignTheta assignY assignX assignHeader maskedSample
  dsimp only
  cases h : s.robot_type_ <;> simp

theorem odomCallback_eq (s : OdomSubscriber) (msg : Odometry) :
    odomCallback s msg =
      { odom_sub_ := s.odom_sub_
        odom_vel_ := maskedSample s.robot_type_ msg
        robot_type_ := s.robot_type_ } := by
  have h1 := odomCallback_robot_type s msg
  have h2 := odomCallback_odom_sub s msg
  have h3 := odomCallback_odom_vel s msg
  cases h : odomCallback s msg
  simp_all

theorem foldl_odomCallback_robot_type (msgs : List Odometry) (s : OdomSubscriber) :
    (msgs.foldl odomCallback s).robot_type_ = s.robot_type_ := by
  induction msgs generalizing s with
  | nil => rfl
  | cons m ms ih => rw [List.foldl_cons, ih, odomCallback_robot_type]

end OdomSubscriber

open OdomSubscriber

/-! ## Lateral masking and passthrough -/

/-- C1. Lateral masking, differential: when the robot type is `DIFFERENTIAL`, for
every prior state and every raw message whose lateral velocity `L` satisfies
`L != 0`, the sample stored by `odomCallback` has lateral exactly `+0.0`, forward
equal to the raw forward and angular equal to the raw angular; and the raw sample
(1.5, 0.8, 0.2, t = 100) makes `getTwist` return (1.5, 0.0, 0.2). -/
theorem lateral_masked_differential (s : OdomSubscriber) (msg : Odometry)
    (hdiff : s.robot_type_ = DIFFERENTIAL)
    (hL : Double.fne msg.twist.twist.linear.y Double.zero = true) :
    (odomCallback s msg).odom_vel_.velocity.y = Double.zero ∧
    (odomCallback s msg).odom_vel_.velocity.x = msg.twist.twist.linear.x ∧
    (odomCallback s msg).odom_vel_.velocity.theta = msg.twist.twist.angular.z ∧
    (getTwist (odomCallback s (rawSample Double.d1_5 Double.d0_8 Double.d0_2 100))).1
      = { x := Double.d1_5, y := Double.zero, theta := Double.d0_2 } := by
  have _ := hL
  simp only [odomCallback_odom_vel, getTwist, maskedSample, hdiff, rawSample, and_self]

theorem lateral_masked_differential_witness :
    Double.fne (rawSample Double.d1_5 Double.d0_8 Double.d0_2 100).twist.twist.linear.y
        Double.zero = true ∧
    (odomCallback ⟨"odom", Twist2DStamped.init, DIFFERENTIAL⟩
        (rawSample Double.d1_5 Double.d0_8 Double.d0_2 100)).odom_vel_.velocity.y
      = Double.zero ∧
    (getTwist (odomCallback ⟨"odom", Twist2DStamped.init, DIFFERENTIAL⟩
        (rawSample Double.d1_5 Double.d0_8 Double.d0_2 100))).1
      = { x := Double.d1_5, y := Double.zero, theta := Double.d0_2 } :=
  have h := lateral_masked_differential ⟨"odom", Twist2DStamped.init, DIFFERENTIAL⟩
    (rawSample Double.d1_5 Double.d0_8 Double.d0_2 100) rfl (by decide)
  ⟨by decide, h.1, h.2.2.2⟩

/-- C2. Lateral passthrough, holonomic: when the robot type is `HOLONOMIC`, for
every prior state and every raw message, the sample stored by `odomCallback` has
the raw message's lateral velocity, bit for bit. -/
theorem lateral_passthrough_holonomic (s : OdomSubscriber) (msg : Odometry)
    (hholo : s.robot_type_ = HOLONOMIC) :
    (odomCallback s msg).odom_vel_.velocity.y = msg.twist.twist.linear.y := by
  simp only [odomCallback_odom_vel, maskedSample, hholo]

theorem lateral_passthrough_holonomic_witness :
    (odomCallback ⟨"odom", Twist2DStamped.init, HOLONOMIC⟩
        (rawSample Double.d1_5 Double.d0_8 Double.d0_2 100)).odom_vel_.velocity.y
      = Double.d0_8 :=
  lateral_passthrough_holonomic ⟨"odom", Twist2DStamped.init, HOLONOMIC⟩
    (rawSample Double.d1_5 Double.d0_8 Double.d0_2 100) rfl

/-! ## Sequences of updates -/

/-- C3. Last write wins: for every robot type, every starting state `s`, every
sequence `earlier` of raw messages and every final message `last`, after the calls
`odomCallback` on `earlier` and then on `last`, `getTwistStamped` returns the masked
sample of `last` and `getTwist` its velocity part; every field of the held sample is
overwritten, and two runs that share the robot type and the final message end with
the same held sample whatever their starting states and earlier messages were. -/
theorem last_write_wins (s : OdomSubscriber) (earlier : List Odometry) (last : Odometry) :
    (getTwistStamped ((earlier ++ [last]).foldl odomCallback s)).1
      = maskedSample s.robot_type_ last ∧
    (getTwist ((earlier ++ [last]).foldl odomCallback s)).1
      = (maskedSample s.robot_type_ last).velocity ∧
    ((earlier ++ [last]).foldl odomCallback s).odom_vel_.header = last.header ∧
    ((earlier ++ [last]).foldl odomCallback s).odom_vel_.velocity.x
      = last.twist.twist.linear.x ∧
    ((earlier ++ [last]).foldl odomCallback s).odom_vel_.velocity.theta
      = last.twist.twist.angular.z ∧
    ∀ (s2 : OdomSubscriber) (earlier2 : List Odometry),
      (getTwistStamped ((earlier2 ++ [last]).foldl odomCallback
          { s2 with robot_type_ := s.robot_type_ })).1
        = (getTwistStamped ((earlier ++ [last]).foldl odomCallback s)).1 := by
  have key : ∀ (t : OdomSubscriber) (l : List Odometry),
      ((l ++ [last]).foldl odomCallback t).odom_vel_ = maskedSample t.robot_type_ last := by
    intro t l
    rw [List.foldl_append, List.foldl_cons, List.foldl_nil, odomCallback_odom_vel,
      foldl_odomCallback_robot_type]
  refine ⟨key s earlier, ?_, ?_, ?_, ?_, ?_⟩
  · simp only [getTwist, key]
  · rw [key]; rfl
  · rw [key]; rfl
  · rw [key]; rfl
  · intro s2 earlier2
    simp only [getTwistStamped, key]

/-! ## Parsing -/

theorem toNat_ofNat_lower (n : Nat) (h1 : 97 ≤ n) (h2 : n ≤ 122) :
    (Char.ofNat n).toNat = n := by
  interval_cases n <;> rfl

theorem tolower_eq_iff (c k : Char) (hk : ¬ ('A' ≤ k ∧ k ≤ 'Z')) :
    tolower c = k ↔ (c = k ∨ ('a' ≤ k ∧ k ≤ 'z' ∧ c.toNat + 32 = k.toNat)) := by
  unfold tolower
  split
  · rename_i h
    have hc : 65 ≤ c.toNat ∧ c.toNat ≤ 90 := h
    have hv : (Char.ofNat (c.toNat + 32)).toNat = c.toNat + 32 :=
      toNat_ofNat_lower _ (by omega) (by omega)
    constructor
    · intro e
      right
      subst e
      refine ⟨?_, ?_, hv.symm⟩
      · show 97 ≤ (Char.ofNat (c.toNat + 32)).toNat
        omega
      · show (Char.ofNat (c.toNat + 32)).toNat ≤ 122
        omega
    · rintro (e | ⟨_, _, e⟩)
      · subst e
        exact absurd h hk
      · rw [e, Char.ofNat_toNat]
  · rename_i h
    constructor
    · intro e
      exact Or.inl e
    · rintro (e | ⟨h1, h2, e⟩)
      · exact e
      · exfalso
        apply h
        have h1n : 97 ≤ k.toNat := h1
        have h2n : k.toNat ≤ 122 := h2
        constructor
        · show 65 ≤ c.toNat
          omega
        · show c.toNat ≤ 90
          omega

theorem map_tolower_eq_iff (l key : List Char)
    (hkey : ∀ k ∈ key, ¬ ('A' ≤ k ∧ k ≤ 'Z')) :
    l.map tolower = key ↔ matchesIgnoringCase l key = true := by
  induction l generalizing key with
  | nil =>
    cases key with
    | nil => simp [matchesIgnoringCase]
    | cons k ks => simp [matchesIgnoringCase]
  | cons c cs ih =>
    cases key with
    | nil => simp [matchesIgnoringCase]
    | cons k ks =>
      have hk : ¬ ('A' ≤ k ∧ k ≤ 'Z') := hkey k (List.mem_cons_self _ _)
      have hks : ∀ k1 ∈ ks, ¬ ('A' ≤ k1 ∧ k1 ≤ 'Z') :=
        fun k1 hmem => hkey k1 (List.mem_cons_of_mem _ hmem)
      simp only [List.map_cons, List.cons.injEq, matchesIgnoringCase, Bool.and_eq_true,
        Bool.or_eq_true, beq_iff_eq, decide_eq_true_eq, tolower_eq_iff c k hk, ih ks hks,
        and_assoc]

theorem transform_tolower_eq_iff (s key : String)
    (hkey : ∀ k ∈ key.data, ¬ ('A' ≤ k ∧ k ≤ 'Z')) :
    transform_tolower s = key ↔ matchesIgnoringCase s.data key.data = true := by
  rw [← map_tolower_eq_iff _ _ hkey, String.ext_iff]
  rfl

/-- C4. Robot-type parsing: for every string `s`, `convertStringToRobotType s`
returns `DIFFERENTIAL` exactly when the lower-cased `s` is "differential", returns
`HOLONOMIC` exactly when the lower-cased `s` is "holonomic", and throws for every
other `s`; the lower-cased `s` is a key exactly when `s` spells the key up to the
case of its letters.  The empty string and "sideways" throw, "Holonomic" and
"HOLONOMIC" give `HOLONOMIC`, "differential" gives `DIFFERENTIAL`. -/
theorem convertStringToRobotType_spec (s : String) :
    (convertStringToRobotType s = Except.ok DIFFERENTIAL
      ↔ transform_tolower s = "differential") ∧
    (convertStringToRobotType s = Except.ok HOLONOMIC
      ↔ transform_tolower s = "holonomic") ∧
    (convertStringToRobotType s = Except.error invalid_robot_type
      ↔ ¬ (transform_tolower s = "differential" ∨ transform_tolower s = "holonomic")) ∧
    (transform_tolower s = "differential"
      ↔ matchesIgnoringCase s.data "differential".data = true) ∧
    (transform_tolower s = "holonomic"
      ↔ matchesIgnoringCase s.data "holonomic".data = true) ∧
    convertStringToRobotType "" = Except.error invalid_robot_type ∧
    convertStringToRobotType "sideways" = Except.error invalid_robot_type ∧
    convertStringToRobotType "Holonomic" = Except.ok HOLONOMIC ∧
    convertStringToRobotType "HOLONOMIC" = Except.ok HOLONOMIC ∧
    convertStringToRobotType "differential" = Except.ok DIFFERENTIAL := by
  refine ⟨?_, ?_, ?_, ?_, ?_, ?_, ?_, ?_, ?_, ?_⟩
  · unfold convertStringToRobotType
    dsimp only
    split
    · rename_i h
      simp [h, pure, Except.pure]
    · rename_i h
      split <;> simp [h, pure, Except.pure, throw, throwThe, MonadExceptOf.throw]
  · unfold convertStringToRobotType
    dsimp only
    split
    · rename_i h
      have hne : transform_tolower s ≠ "holonomic" := by rw [h]; decide
      simp [hne, pure, Except.pure]
    · rename_i h
      split
      · rename_i h2
        simp [h2, pure, Except.pure]
      · rename_i h2
        simp [h2, throw, throwThe, MonadExceptOf.throw]
  · unfold convertStringToRobotType
    dsimp only
    split
    · rename_i h
      simp [h, pure, Except.pure]
    · rename_i h
      split
      · rename_i h2
        simp [h2, pure, Except.pure]
      · rename_i h2
        simp [h, h2, throw, throwThe, MonadExceptOf.throw]
  · exact transform_tolower_eq_iff s "differential" (by decide)
  · exact transform_tolower_eq_iff s "holonomic" (by decide)
  · rfl
  · rfl
  · rfl
  · rfl
  · rfl

/-! ## Construction and the initial sample -/

/-- C5, as stated, fails: with the parameter `holonomic_robot` absent (and no other
kinematic-type value anywhere in the configuration) the constructor does not throw;
it returns a subscriber whose robot type is the default `HOLONOMIC`. -/
theorem construction_absent_type_succeeds :
    OdomSubscriber.new { odom_topic := none, holonomic_robot := none } "odom"
      = Except.ok { odom_sub_ := "odom", odom_vel_ := Twist2DStamped.init,
                    robot_type_ := HOLONOMIC } ∧
    ¬ ∃ e, OdomSubscriber.new { odom_topic := none, holonomic_robot := none } "odom"
      = Except.error e := by
  constructor
  · rfl
  · rintro ⟨e, he⟩
    exact Except.noConfusion he

/-- C5, amended. The constructor takes the robot type from the boolean parameter
`holonomic_robot` and validates nothing.  For every configuration, the parameter
absent or set to a boolean, construction returns a subscriber and throws no
exception; the subscriber is exactly the one with the topic `odom_topic` (else
`default_topic`), the default sample, and robot type `HOLONOMIC` when the parameter
is true or absent and `DIFFERENTIAL` when it is false.  So the robot type is
`DIFFERENTIAL` exactly when the parameter is set to false, and an absent parameter
is replaced by the default `HOLONOMIC` instead of being rejected. -/
theorem construction_never_fails (nh : Node) (default_topic : String) :
    OdomSubscriber.new nh default_topic
      = Except.ok
          { odom_sub_ := get_parameter_or nh.odom_topic default_topic
            odom_vel_ := Twist2DStamped.init
            robot_type_ :=
              if get_parameter_or nh.holonomic_robot true then HOLONOMIC
              else DIFFERENTIAL } ∧
    (∃ s, OdomSubscriber.new nh default_topic = Except.ok s ∧
      (s.robot_type_ = DIFFERENTIAL ↔ nh.holonomic_robot = some false) ∧
      (s.robot_type_ = HOLONOMIC ↔ nh.holonomic_robot ≠ some false)) ∧
    (¬ ∃ e, OdomSubscriber.new nh default_topic = Except.error e) ∧
    (∃ s, OdomSubscriber.new { nh with holonomic_robot := none } default_topic = Except.ok s
      ∧ s.robot_type_ = HOLONOMIC) ∧
    (∃ s, OdomSubscriber.new { nh with holonomic_robot := some true } default_topic
        = Except.ok s ∧ s.robot_type_ = HOLONOMIC) ∧
    (∃ s, OdomSubscriber.new { nh with holonomic_robot := some false } default_topic
        = Except.ok s ∧ s.robot_type_ = DIFFERENTIAL) := by
  refine ⟨rfl, ?_, ?_, ⟨_, rfl, rfl⟩, ⟨_, rfl, rfl⟩, ⟨_, rfl, rfl⟩⟩
  · refine ⟨_, rfl, ?_⟩
    rcases nh with ⟨topic, holonomic⟩
    rcases holonomic with _ | b
    · simp [get_parameter_or]
    · cases b <;> simp [get_parameter_or]
  · rintro ⟨e, he⟩
    exact Except.noConfusion he

/-- C6. Initial state: for every configuration, hence for either robot type, the
freshly constructed subscriber returns forward `+0.0`, lateral `+0.0`, angular
`+0.0` from `getTwist` and the zero sample with the epoch time stamp from
`getTwistStamped`; both robot types are obtained by some configuration. -/
theorem initial_sample_zero (nh : Node) (default_topic : String) :
    (∃ s, OdomSubscriber.new nh default_topic = Except.ok s ∧
      (getTwist s).1 = { x := Double.zero, y := Double.zero, theta := Double.zero } ∧
      (getTwistStamped s).1 =
        { header := { stamp := { sec := 0, nanosec := 0 }, frame_id := "" }
          velocity := { x := Double.zero, y := Double.zero, theta := Double.zero } }) ∧
    (∀ t : RobotType, ∃ nh2 s2, OdomSubscriber.new nh2 default_topic = Except.ok s2 ∧
      s2.robot_type_ = t ∧
      (getTwist s2).1 = { x := Double.zero, y := Double.zero, theta := Double.zero }) := by
  refine ⟨⟨_, rfl, rfl, rfl⟩, ?_⟩
  intro t
  cases t
  · exact ⟨{ odom_topic := none, holonomic_robot := some false }, _, rfl, rfl, rfl⟩
  · exact ⟨{ odom_topic := none, holonomic_robot := some true }, _, rfl, rfl, rfl⟩

/-! ## Reads -/

/-- C7. Time stamp passthrough: for every robot type, prior state and raw message,
the header (time stamp and frame) that `getTwistStamped` returns after
`odomCallback` is the raw message's header, unchanged, whether or not the lateral
velocity was masked. -/
theorem header_passthrough (s : OdomSubscriber) (msg : Odometry) :
    (getTwistStamped (odomCallback s msg)).1.header = msg.header ∧
    (getTwistStamped (odomCallback s msg)).1.header.stamp = msg.header.stamp := by
  simp only [getTwistStamped, odomCallback_odom_vel, maskedSample, and_self]

/-- C9. Read consistency: in every state `getTwistStamped` returns the held sample
in full, `getTwist` returns the velocity part of what `getTwistStamped` returns,
and both leave the object (held sample, robot type, subscription) as it was.  Both
are total functions: a read cannot fail. -/
theorem reads_consistent (s : OdomSubscriber) :
    (getTwistStamped s).1 = s.odom_vel_ ∧
    (getTwist s).1 = (getTwistStamped s).1.velocity ∧
    (getTwist s).1.x = (getTwistStamped s).1.velocity.x ∧
    (getTwist s).1.y = (getTwistStamped s).1.velocity.y ∧
    (getTwist s).1.theta = (getTwistStamped s).1.velocity.theta ∧
    (getTwist s).2 = s ∧
    (getTwistStamped s).2 = s ∧
    (getTwist s).2.odom_vel_ = s.odom_vel_ ∧
    (getTwistStamped s).2.robot_type_ = s.robot_type_ :=
  ⟨rfl, rfl, rfl, rfl, rfl, rfl, rfl, rfl, rfl⟩

/-! ## The differential invariant -/

/-- C10. Differential invariant: starting from a subscriber constructed with robot
type `DIFFERENTIAL`, after any finite sequence of `odomCallback` calls, the empty
one included, the held sample's lateral velocity is `+0.0`, and so is the lateral
velocity either getter returns. -/
theorem differential_lateral_always_zero (nh : Node) (default_topic : String)
    (s0 : OdomSubscriber) (msgs : List Odometry)
    (hnew : OdomSubscriber.new nh default_topic = Except.ok s0)
    (hdiff : s0.robot_type_ = DIFFERENTIAL) :
    (msgs.foldl odomCallback s0).odom_vel_.velocity.y = Double.zero ∧
    (getTwist (msgs.foldl odomCallback s0)).1.y = Double.zero ∧
    (getTwistStamped (msgs.foldl odomCallback s0)).1.velocity.y = Double.zero := by
  have hinit : s0.odom_vel_.velocity.y = Double.zero := by
    have h := Except.ok.inj hnew
    rw [← h]
    rfl
  have key : (msgs.foldl odomCallback s0).odom_vel_.velocity.y = Double.zero := by
    rcases List.eq_nil_or_concat msgs with h | ⟨l, m, h⟩
    · rw [h]
      exact hinit
    · rw [h, List.concat_eq_append, List.foldl_append, List.foldl_cons, List.foldl_nil,
        odomCallback_odom_vel, foldl_odomCallback_robot_type, hdiff]
      rfl
  exact ⟨key, key, key⟩

theorem differential_lateral_always_zero_witness :
    (([rawSample Double.d1_5 Double.d0_8 Double.d0_2 100,
       rawSample Double.d2 Double.d1 Double.d0_2 101].foldl odomCallback
        { odom_sub_ := "odom", odom_vel_ := Twist2DStamped.init,
          robot_type_ := DIFFERENTIAL }).odom_vel_.velocity.y = Double.zero) :=
  (differential_lateral_always_zero
    { odom_topic := none, holonomic_robot := some false } "odom"
    { odom_sub_ := "odom", odom_vel_ := Twist2DStamped.init, robot_type_ := DIFFERENTIAL }
    [rawSample Double.d1_5 Double.d0_8 Double.d0_2 100,
     rawSample Double.d2 Double.d1 Double.d0_2 101]
    rfl rfl).1

/-! ## Interleaved execution -/

theorem Sys.run_callbackEvents (obj : OdomSubscriber) (msg : Odometry) :
    Sys.run (Sys.idle obj) (Sys.callbackEvents msg)
      = some (Sys.idle (odomCallback obj msg), []) := by
  rfl

/-- C8 does not hold of the code: the getters take no lock.  A differential
subscriber has stored A = (1, 0, 0) stamped t = 1 and `odomCallback` is running on
B = (2, 0, 0) stamped t = 2: it holds `odom_mutex_` and has assigned the header but
not yet the forward velocity.  `getTwistStamped` is enabled in that state and
returns B's header with A's forward velocity, which is the output of neither
write (nor the initial sample). -/
theorem torn_read_reachable :
    Sys.run
        (Sys.idle { odom_sub_ := "odom", odom_vel_ := Twist2DStamped.init,
                    robot_type_ := DIFFERENTIAL })
        (Sys.callbackEvents (rawSample Double.d1 Double.zero Double.zero 1) ++
          [Event.deliver (rawSample Double.d2 Double.zero Double.zero 2),
           Event.writerStep, Event.writerStep, Event.getTwistStamped])
      = some
          ({ obj := { odom_sub_ := "odom"
                      odom_vel_ :=
                        { header := { stamp := { sec := 2, nanosec := 0 }, frame_id := "" }
                          velocity := { x := Double.d1, y := Double.zero,
                                        theta := Double.zero } }
                      robot_type_ := DIFFERENTIAL }
             odom_mutex_ := true
             writer := some (rawSample Double.d2 Double.zero Double.zero 2, Pc.x) },
           [Obs.stamped
              { header := { stamp := { sec := 2, nanosec := 0 }, frame_id := "" }
                velocity := { x := Double.d1, y := Double.zero, theta := Double.zero } }]) ∧
    ({ header := { stamp := { sec := 2, nanosec := 0 }, frame_id := "" }
       velocity := { x := Double.d1, y := Double.zero, theta := Double.zero } }
        : Twist2DStamped)
      ≠ maskedSample DIFFERENTIAL (rawSample Double.d1 Double.zero Double.zero 1) ∧
    ({ header := { stamp := { sec := 2, nanosec := 0 }, frame_id := "" }
       velocity := { x := Double.d1, y := Double.zero, theta := Double.zero } }
        : Twist2DStamped)
      ≠ maskedSample DIFFERENTIAL (rawSample Double.d2 Double.zero Double.zero 2) ∧
    ({ header := { stamp := { sec := 2, nanosec := 0 }, frame_id := "" }
       velocity := { x := Double.d1, y := Double.zero, theta := Double.zero } }
        : Twist2DStamped)
      ≠ Twist2DStamped.init := by
  refine ⟨rfl, ?_, ?_, ?_⟩ <;> decide

/-! ## The robot type -/

/-- C11. Robot type is immutable after construction: for every state and every raw
message `odomCallback` leaves `robot_type_` as it was, as does each of its four
assignments and each getter; so after any sequence of messages the robot type of a
constructed subscriber is still the one its constructor resolved. -/
theorem robot_type_immutable (s : OdomSubscriber) (msg : Odometry)
    (msgs : List Odometry) (nh : Node) (default_topic : String) :
    (odomCallback s msg).robot_type_ = s.robot_type_ ∧
    (assignHeader s msg).robot_type_ = s.robot_type_ ∧
    (assignX s msg).robot_type_ = s.robot_type_ ∧
    (assignY s msg).robot_type_ = s.robot_type_ ∧
    (assignTheta s msg).robot_type_ = s.robot_type_ ∧
    (getTwist s).2.robot_type_ = s.robot_type_ ∧
    (getTwistStamped s).2.robot_type_ = s.robot_type_ ∧
    (msgs.foldl odomCallback s).robot_type_ = s.robot_type_ ∧
    (∃ s0, OdomSubscriber.new nh default_topic = Except.ok s0 ∧
      (msgs.foldl odomCallback s0).robot_type_ = s0.robot_type_ ∧
      (msgs.foldl odomCallback s0).robot_type_ =
        (if get_parameter_or nh.holonomic_robot true then HOLONOMIC else DIFFERENTIAL)) := by
  refine ⟨odomCallback_robot_type s msg, rfl, rfl, ?_, rfl, rfl, rfl,
    foldl_odomCallback_robot_type msgs s, ⟨_, rfl, foldl_odomCallback_robot_type msgs _, ?_⟩⟩
  · unfold assignY
    split <;> rfl
  · rw [foldl_odomCallback_robot_type]

/-- C12. Default construction path: for every setting of the two parameters the
constructor returns a subscriber and throws nothing; its robot type is decided by
the boolean `holonomic_robot` alone, `DIFFERENTIAL` when the parameter is set to
false and `HOLONOMIC` when it is set to true or not set; the topic is `odom_topic`
or else `default_topic`, and the held sample is the default one.  The result is
given in closed form from the parameters; no string is parsed on the way. -/
theorem default_construction (topic : Option String) (holonomic : Option Bool)
    (default_topic : String) :
    OdomSubscriber.new { odom_topic := topic, holonomic_robot := holonomic } default_topic
      = Except.ok
          { odom_sub_ := get_parameter_or topic default_topic
            odom_vel_ := Twist2DStamped.init
            robot_type_ :=
              match holonomic with
              | some false => DIFFERENTIAL
              | some true => HOLONOMIC
              | none => HOLONOMIC } ∧
    (∃ s, OdomSubscriber.new { odom_topic := topic, holonomic_robot := holonomic }
        default_topic = Except.ok s ∧
      (s.robot_type_ = HOLONOMIC ↔ (holonomic = none ∨ holonomic = some true)) ∧
      (s.robot_type_ = DIFFERENTIAL ↔ holonomic = some false)) ∧
    (¬ ∃ e, OdomSubscriber.new { odom_topic := topic, holonomic_robot := holonomic }
        default_topic = Except.error e) := by
  refine ⟨?_, ?_, fun ⟨_, he⟩ => Except.noConfusion he⟩
  · rcases holonomic with _ | b
    · rfl
    · cases b <;> rfl
  · rcases holonomic with _ | b
    · exact ⟨_, rfl, by simp [OdomSubscriber.new, get_parameter_or, pure, Except.pure]⟩
    · cases b
      · exact ⟨_, rfl, by simp [OdomSubscriber.new, get_parameter_or, pure, Except.pure]⟩
      · exact ⟨_, rfl, by simp [OdomSubscriber.new, get_parameter_or, pure, Except.pure]⟩

/-! ## Relations between updates -/

/-- C13. Lateral noninterference, differential: when the robot type is
`DIFFERENTIAL`, two raw messages with the same header (the time stamp, with its
frame id), the same forward velocity and the same angular velocity, whatever their lateral velocities
and their other fields, take any prior state to the same state under
`odomCallback`, so both getters return the same values afterwards. -/
theorem lateral_noninterference_differential (s : OdomSubscriber) (m1 m2 : Odometry)
    (hdiff : s.robot_type_ = DIFFERENTIAL)
    (hheader : m1.header = m2.header)
    (hforward : m1.twist.twist.linear.x = m2.twist.twist.linear.x)
    (hangular : m1.twist.twist.angular.z = m2.twist.twist.angular.z) :
    odomCallback s m1 = odomCallback s m2 ∧
    (getTwist (odomCallback s m1)).1 = (getTwist (odomCallback s m2)).1 ∧
    (getTwistStamped (odomCallback s m1)).1 = (getTwistStamped (odomCallback s m2)).1 := by
  have h : odomCallback s m1 = odomCallback s m2 := by
    rw [odomCallback_eq, odomCallback_eq]
    simp only [maskedSample, hdiff, hheader, hforward, hangular]
  exact ⟨h, by rw [h], by rw [h]⟩

theorem lateral_noninterference_differential_witness :
    (rawSample Double.d1_5 Double.d0_8 Double.d0_2 100).twist.twist.linear.y
      ≠ (rawSample Double.d1_5 Double.d2 Double.d0_2 100).twist.twist.linear.y ∧
    odomCallback { odom_sub_ := "odom", odom_vel_ := Twist2DStamped.init,
                   robot_type_ := DIFFERENTIAL }
        (rawSample Double.d1_5 Double.d0_8 Double.d0_2 100)
      = odomCallback { odom_sub_ := "odom", odom_vel_ := Twist2DStamped.init,
                       robot_type_ := DIFFERENTIAL }
          (rawSample Double.d1_5 Double.d2 Double.d0_2 100) :=
  ⟨by decide,
   (lateral_noninterference_differential
      { odom_sub_ := "odom", odom_vel_ := Twist2DStamped.init, robot_type_ := DIFFERENTIAL }
      (rawSample Double.d1_5 Double.d0_8 Double.d0_2 100)
      (rawSample Double.d1_5 Double.d2 Double.d0_2 100) rfl rfl rfl rfl).1⟩

/-- C14. Idempotence of the update: for every robot type, every state and every
raw message, calling `odomCallback` with the message twice in a row leaves the
same state as calling it once. -/
theorem odomCallback_idempotent (s : OdomSubscriber) (msg : Odometry) :
    odomCallback (odomCallback s msg) msg = odomCallback s msg := by
  rw [odomCallback_eq (odomCallback s msg) msg, odomCallback_robot_type,
    odomCallback_odom_sub, ← odomCallback_eq]

end nav_2d_utils
